import Mathlib

/-!
A verification development for the `d7-celo-rpg` bot repository.

The TypeScript sources are shallowly embedded: pure functions become Lean
functions, the retry loops of the two external-call adapters become fuel
recursions over an explicit stream of per-attempt behaviours, and the one
place where JavaScript reference semantics is observable (the shallow copy
inside `MemoryManager.updateMemory`) is modelled by returning, next to the
new memory value, the contents of the caller-visible `recentActions` array
after the call.  JavaScript numbers are modelled as exact rationals; where a
division by zero can occur (`BattleIntelligence.analyzeItemROI`) the IEEE-754
special values are modelled explicitly by the `JSNum` type.
-/

namespace CeloRpg

/-! ## Data model (src/features/persistence/types.ts, src/features/ai/types.ts,
     src/features/gameLogic/types.ts) -/

/-- One entry of `GameMemory.itemsPurchased` (`{ id; name; cost }`). -/
structure OwnedItem where
  id : Nat
  name : String
  cost : Nat
  deriving Repr, DecidableEq

/-- Structure `ActionOutcome` from src/features/persistence/types.ts. -/
structure ActionOutcome where
  action : String
  success : Bool
  goldChange : Int
  expChange : Int
  timestamp : Nat
  details : Option String := none
  deriving Repr, DecidableEq

/-- Structure `GameMemory` from src/features/persistence/types.ts.  Counters are
naturals (they start at 0 and only ever increment); the gold accumulators are
integers fed from the signed `goldChange`. -/
structure GameMemory where
  totalActions : Nat
  totalBattles : Nat
  battlesWon : Nat
  battlesLost : Nat
  goldEarned : Int
  goldSpent : Int
  itemsPurchased : List OwnedItem
  recentActions : List ActionOutcome
  consecutiveWins : Nat
  consecutiveLosses : Nat
  bestWinStreak : Nat
  deriving Repr, DecidableEq

/-- Structure `PlayerStats` after the `parseInt` conversions applied at every use site
(the on-chain fields are `uint256`, so naturals). -/
structure PlayerStats where
  level : Nat
  experience : Nat
  gold : Nat
  strength : Nat
  defense : Nat
  deriving Repr, DecidableEq

/-- Structure `ItemData` from src/features/gameLogic/types.ts. -/
structure ItemData where
  id : Nat
  name : String
  cost : Nat
  strength : Nat
  defense : Nat
  deriving Repr, DecidableEq

/-- Constant `CONFIG.itemShop` from src/config/index.ts. -/
def itemShop : List ItemData :=
  [ { id := 0, name := "Wooden Shield", cost := 50, strength := 0, defense := 5 },
    { id := 1, name := "Iron Sword", cost := 100, strength := 10, defense := 0 },
    { id := 2, name := "Steel Armor", cost := 250, strength := 5, defense := 20 } ]

/-- Constant `CONFIG.guardrails` from src/config/index.ts. -/
structure Guardrails where
  maxConsecutiveLosses : Nat
  minGoldForFight : Nat
  deriving Repr, DecidableEq

/-- The concrete guardrail thresholds of src/config/index.ts. -/
def configGuardrails : Guardrails :=
  { maxConsecutiveLosses := 5, minGoldForFight := 20 }

/-! ## Memory Store (src/features/persistence/MemoryManager.ts) -/

/-- Function `MemoryManager.initializeMemory`. -/
def initializeMemory : GameMemory :=
  { totalActions := 0
    totalBattles := 0
    battlesWon := 0
    battlesLost := 0
    goldEarned := 0
    goldSpent := 0
    itemsPurchased := []
    recentActions := []
    consecutiveWins := 0
    consecutiveLosses := 0
    bestWinStreak := 0 }

/-- Function `MemoryManager.updateMemory`, embedded with JavaScript reference
semantics made explicit.  The source does `const newMemory = {...currentMemory}`
(a shallow copy, so `newMemory.recentActions` aliases the caller's array) and
then `newMemory.recentActions.push(outcome)`, which mutates that shared
array; only when the pushed array exceeds 30 entries is the field reassigned
to a fresh `slice(-30)`.  The first component is the returned memory value;
the second component is what the caller's `currentMemory.recentActions`
array holds after the call. -/
def updateMemoryJS (currentMemory : GameMemory) (outcome : ActionOutcome) :
    GameMemory × List ActionOutcome :=
  -- newMemory.recentActions.push(outcome): mutates the array shared with the caller
  let pushed := currentMemory.recentActions ++ [outcome]
  -- if (newMemory.recentActions.length > 30) newMemory.recentActions = slice(-30)
  let recent := if pushed.length > 30 then pushed.drop (pushed.length - 30) else pushed
  let afterBattle :=
    if outcome.action = "fightMonster" then
      if outcome.success then
        let wins := currentMemory.consecutiveWins + 1
        { currentMemory with
          totalActions := currentMemory.totalActions + 1
          recentActions := recent
          totalBattles := currentMemory.totalBattles + 1
          battlesWon := currentMemory.battlesWon + 1
          consecutiveWins := wins
          consecutiveLosses := 0
          bestWinStreak := max currentMemory.bestWinStreak wins }
      else
        { currentMemory with
          totalActions := currentMemory.totalActions + 1
          recentActions := recent
          totalBattles := currentMemory.totalBattles + 1
          battlesLost := currentMemory.battlesLost + 1
          consecutiveLosses := currentMemory.consecutiveLosses + 1
          consecutiveWins := 0 }
    else
      { currentMemory with
        totalActions := currentMemory.totalActions + 1
        recentActions := recent }
  let withGold :=
    if outcome.goldChange > 0 then
      { afterBattle with goldEarned := afterBattle.goldEarned + outcome.goldChange }
    else if outcome.goldChange < 0 then
      { afterBattle with goldSpent := afterBattle.goldSpent + outcome.goldChange.natAbs }
    else afterBattle
  (withGold, pushed)

/-- The value returned by `MemoryManager.updateMemory`. -/
def updateMemory (currentMemory : GameMemory) (outcome : ActionOutcome) : GameMemory :=
  (updateMemoryJS currentMemory outcome).1

/-! ## Decision Oracle Adapter (src/features/ai/AIService.ts) -/

/-- A dynamically typed JavaScript value, as far as the oracle-reply
validation observes it: `undefined`, `null`, booleans, numbers (with `NaN`
kept separate because it is falsy yet of `typeof` number), strings, and a
catch-all for objects/arrays. -/
inductive JSVal where
  | undef : JSVal
  | null : JSVal
  | bool (b : Bool) : JSVal
  | num (q : ℚ) : JSVal
  | nan : JSVal
  | str (s : String) : JSVal
  | objLike : JSVal
  deriving Repr, DecidableEq

/-- JavaScript truthiness of a `JSVal`. -/
def JSVal.truthy : JSVal → Bool
  | .undef => false
  | .null => false
  | .bool b => b
  | .num q => q ≠ 0
  | .nan => false
  | .str s => s ≠ ""
  | .objLike => true

/-- Test `typeof v === 'string'`. -/
def JSVal.isString : JSVal → Bool
  | .str _ => true
  | _ => false

/-- Test `typeof v === 'number'` (`NaN` included). -/
def JSVal.isNumber : JSVal → Bool
  | .num _ => true
  | .nan => true
  | _ => false

/-- The object produced by `JSON.parse` of an oracle reply, projected onto
the three fields the validation reads; a missing field reads as `undefined`. -/
structure ParsedReply where
  action : JSVal
  reasoning : JSVal
  itemId : JSVal
  deriving Repr, DecidableEq

/-- Structure `AIDecision` from src/features/ai/types.ts, as it exists at runtime
after the unchecked `parsed as AIDecision` cast: `action` is whatever string
the reply carried, `itemId` is an optional number. -/
structure AIDecision where
  action : String
  reasoning : String
  itemId : Option ℚ := none
  deriving Repr, DecidableEq

/-- String payload of a `JSVal` (only read behind an `isString` guard). -/
def JSVal.asString : JSVal → String
  | .str s => s
  | _ => ""

/-- Numeric payload of a `JSVal` as an optional number (only read behind an
`isNumber` guard; `NaN` is mapped to 0, a case never exercised by a guard
that also requires a finite value, and irrelevant to the properties below). -/
def JSVal.asNum : JSVal → Option ℚ
  | .num q => some q
  | .nan => some 0
  | _ => none

/-- Function `AIService.parseAndValidateResponse`.  The input is the outcome of the
external `JSON.parse` (`none` = the string was not valid JSON, which the
source catches and turns into `null`).  The three checks are the source's:
`!parsed.action || typeof parsed.action !== 'string'`, the same for
`reasoning`, and `parsed.itemId !== undefined && typeof parsed.itemId !==
'number'`. -/
def parseAndValidateResponse (raw : Option ParsedReply) : Option AIDecision :=
  match raw with
  | none => none
  | some parsed =>
    if !parsed.action.truthy || !parsed.action.isString then none
    else if !parsed.reasoning.truthy || !parsed.reasoning.isString then none
    else if parsed.itemId ≠ JSVal.undef && !parsed.itemId.isNumber then none
    else some
      { action := parsed.action.asString
        reasoning := parsed.reasoning.asString
        itemId := parsed.itemId.asNum }

/-- The fallback decision returned by `AIService.getDecision` when every
attempt has failed. -/
def fallbackDecision : AIDecision :=
  { action := "train"
    reasoning := "AI service failed to get a valid response after all retries. Executing a safe fallback action." }

/-- One attempt's worth of behaviour of the external decision service, as
`getDecision` observes it: the `axios.post` throws, or resolves with an
empty `content`, or resolves with a string whose `JSON.parse` outcome is the
given `Option ParsedReply`. -/
inductive OracleAttempt where
  | transportError : OracleAttempt
  | emptyContent : OracleAttempt
  | reply (r : Option ParsedReply) : OracleAttempt
  deriving Repr, DecidableEq

/-- What a single loop iteration of `AIService.getDecision` extracts from
one attempt: a validated decision, or nothing (empty content, transport
error, malformed or invalid reply — all of which make the loop continue). -/
def attemptDecision : OracleAttempt → Option AIDecision
  | .transportError => none
  | .emptyContent => none
  | .reply r => parseAndValidateResponse r

/-- The retry loop of `AIService.getDecision`: attempts `i`, `i+1`, … are
tried while fuel remains (fuel starts at `aiSettings.maxRetries`); the first
attempt yielding a validated decision returns it, and when the loop exhausts
its attempts the fallback decision is returned.  (The source breaks out of
the loop early when the last attempt throws, and otherwise falls out of the
loop guard — both paths reach the same `return` of the fallback.) -/
def getDecisionAux (behavior : ℕ → OracleAttempt) : ℕ → ℕ → AIDecision
  | _, 0 => fallbackDecision
  | i, fuel + 1 =>
    match attemptDecision (behavior i) with
    | some d => d
    | none => getDecisionAux behavior (i + 1) fuel

/-- Function `AIService.getDecision`, as a function of the configured retry count and
the per-attempt behaviour of the external service. -/
def getDecision (maxRetries : ℕ) (behavior : ℕ → OracleAttempt) : AIDecision :=
  getDecisionAux behavior 0 maxRetries

/-- The six action kinds of `AIDecision['action']` in
src/features/ai/types.ts. -/
def validActionKinds : List String :=
  ["createPlayer", "train", "fightMonster", "buyItem", "levelUp", "wait"]

/-! ## Guardrail Validator (src/core/BotEngine.ts, `validateAIDecision`) -/

/-- The override returned by the loss-streak guardrail. -/
def lossStreakOverride : AIDecision :=
  { action := "train"
    reasoning := "Forced training to break a losing streak (Safety Override)." }

/-- The override returned by the insufficient-gold guardrail. -/
def lowGoldOverride : AIDecision :=
  { action := "train"
    reasoning := "Gold is too low to risk a fight (Safety Override)." }

/-- The override returned by the unaffordable-item guardrail. -/
def unaffordableOverride : AIDecision :=
  { action := "train"
    reasoning := "Cannot afford the item, training instead (Safety Override)." }

/-- JavaScript array indexing `shop[q]` for a numeric index `q`: an element
is produced only when `q` is a non-negative integer within bounds, otherwise
`undefined`. -/
def shopGet (shop : List ItemData) (q : ℚ) : Option ItemData :=
  if q.den = 1 ∧ 0 ≤ q.num then shop[q.num.toNat]? else none

/-- Function `BotEngine.validateAIDecision`: the hard-coded safety rules applied to
the oracle's decision, in source order.  `stats.gold` stands for
`parseInt(stats.gold)`. -/
def validateAIDecision (g : Guardrails) (shop : List ItemData)
    (decision : AIDecision) (stats : PlayerStats) (memory : GameMemory) : AIDecision :=
  let gold := stats.gold
  if decision.action = "fightMonster" ∧ g.maxConsecutiveLosses ≤ memory.consecutiveLosses then
    lossStreakOverride
  else if decision.action = "fightMonster" ∧ gold < g.minGoldForFight then
    lowGoldOverride
  else if decision.action = "buyItem" then
    match decision.itemId with
    | some q =>
      match shopGet shop q with
      | some item => if gold < item.cost then unaffordableOverride else decision
      | none => decision
    | none => decision
  else decision

/-- A guardrail rule as the specification describes it: a matching
condition together with the override substituted when it cond. -/
structure GuardrailRule where
  cond : AIDecision → PlayerStats → GameMemory → Bool
  override : AIDecision

/-- First-matching-rule semantics: the override of the first rule whose
condition holds, and the decision unchanged when none does. -/
def firstMatching : List GuardrailRule → AIDecision → PlayerStats → GameMemory → AIDecision
  | [], d, _, _ => d
  | r :: rs, d, s, m => if r.cond d s m then r.override else firstMatching rs d s m

/-- The three guardrail rules in the order the specification lists them:
loss-streak, insufficient gold, unaffordable referenced item. -/
def guardrailRules (g : Guardrails) (shop : List ItemData) : List GuardrailRule :=
  [ { cond := fun d _ m =>
        d.action == "fightMonster" && decide (g.maxConsecutiveLosses ≤ m.consecutiveLosses)
      override := lossStreakOverride },
    { cond := fun d s _ =>
        d.action == "fightMonster" && decide (s.gold < g.minGoldForFight)
      override := lowGoldOverride },
    { cond := fun d s _ =>
        d.action == "buyItem" &&
          (match d.itemId with
           | some q =>
             match shopGet shop q with
             | some item => decide (s.gold < item.cost)
             | none => false
           | none => false)
      override := unaffordableOverride } ]

/-! ## Outcome Predictor (src/features/gameLogic/BattleIntelligence.js,
     `predictBattleOutcome`) -/

/-- Structure `BattlePrediction` from src/features/gameLogic/types.ts.  Number display
formatting inside the factor strings (`toFixed`) is abstracted by
`toString`. -/
structure BattlePrediction where
  winProbability : ℚ
  expectedGoldChange : ℚ
  expectedXpChange : ℚ
  riskLevel : String
  recommendation : String
  contributingFactors : List String
  deriving Repr, DecidableEq

/-- Function `BattleIntelligence.predictBattleOutcome`.  JavaScript numbers are
modelled as exact rationals; all inputs are finite naturals, so no IEEE
special value can arise here, and the single division is guarded by
`totalBattles > 5`. -/
def predictBattleOutcome (stats : PlayerStats) (memory : GameMemory) : BattlePrediction :=
  let strength : ℚ := stats.strength
  let defense : ℚ := stats.defense
  let powerScore : ℚ := strength + defense
  let powerBonus : ℚ := (powerScore - 20) * (5 / 1000)
  let w1 : ℚ := 1 / 2 + powerBonus
  let factors1 : List String :=
    if powerScore > 30 then
      ["Strong Power Score (" ++ toString (stats.strength + stats.defense) ++ ")"]
    else []
  let totalBattles := memory.battlesWon + memory.battlesLost
  let historicalWinRate : ℚ := (memory.battlesWon : ℚ) / (totalBattles : ℚ)
  let w2 : ℚ :=
    if totalBattles > 5 then w1 + (historicalWinRate - 1 / 2) * (2 / 10) else w1
  let factors2 : List String :=
    if totalBattles > 5 then
      factors1 ++ ["Historical Win Rate: " ++ toString (historicalWinRate * 100) ++ "%"]
    else factors1
  let w3 : ℚ :=
    if memory.consecutiveWins ≥ 2 then w2 + (memory.consecutiveWins : ℚ) * (5 / 100) else w2
  let factors3 : List String :=
    if memory.consecutiveWins ≥ 2 then
      factors2 ++ ["🔥 Hot Streak (" ++ toString memory.consecutiveWins ++ " wins)"]
    else factors2
  let w4 : ℚ :=
    if memory.consecutiveLosses ≥ 2 then w3 - (memory.consecutiveLosses : ℚ) * (7 / 100) else w3
  let factors4 : List String :=
    if memory.consecutiveLosses ≥ 2 then
      factors3 ++ ["❄️ Cold Streak (" ++ toString memory.consecutiveLosses ++ " losses)"]
    else factors3
  -- winProb = Math.max(0.05, Math.min(0.95, winProb))
  let winProb : ℚ := max (5 / 100) (min (95 / 100) w4)
  let riskLevel : String :=
    if winProb > 7 / 10 then "low" else if winProb > 45 / 100 then "medium" else "high"
  let recommendation : String :=
    if riskLevel = "low" then "Favorable odds"
    else if riskLevel = "medium" then "Calculated risk"
    else "High risk, not recommended"
  { winProbability := winProb
    expectedGoldChange := winProb * 40 - (1 - winProb) * 20
    expectedXpChange := winProb * 25 + 5
    riskLevel := riskLevel
    recommendation := recommendation
    contributingFactors := factors4 }

/-! ## Investment Analyzer (src/features/gameLogic/BattleIntelligence.js,
     `analyzeItemROI`) -/

/-- A JavaScript number with the IEEE-754 special values relevant here:
finite values are exact rationals, plus the two infinities and `NaN`.  The
analyzer divides by a possibly-zero power score, so the specials are
reachable and must be modelled. -/
inductive JSNum where
  | val (q : ℚ) : JSNum
  | inf : JSNum
  | ninf : JSNum
  | nan : JSNum
  deriving Repr, DecidableEq

/-- IEEE subtraction on `JSNum`. -/
def JSNum.sub : JSNum → JSNum → JSNum
  | nan, _ => nan
  | _, nan => nan
  | val a, val b => val (a - b)
  | inf, val _ => inf
  | ninf, val _ => ninf
  | val _, inf => ninf
  | val _, ninf => inf
  | inf, ninf => inf
  | ninf, inf => ninf
  | inf, inf => nan
  | ninf, ninf => nan

/-- IEEE multiplication on `JSNum`. -/
def JSNum.mul : JSNum → JSNum → JSNum
  | nan, _ => nan
  | _, nan => nan
  | val a, val b => val (a * b)
  | inf, val b => if 0 < b then inf else if b < 0 then ninf else nan
  | val a, inf => if 0 < a then inf else if a < 0 then ninf else nan
  | ninf, val b => if 0 < b then ninf else if b < 0 then inf else nan
  | val a, ninf => if 0 < a then ninf else if a < 0 then inf else nan
  | inf, inf => inf
  | inf, ninf => ninf
  | ninf, inf => ninf
  | ninf, ninf => inf

/-- IEEE division on `JSNum` (zero denominators are signed as `+0`, the
only zero arising from naturals, so `a / 0 = +∞` for `a > 0`). -/
def JSNum.div : JSNum → JSNum → JSNum
  | nan, _ => nan
  | _, nan => nan
  | val a, val b =>
    if b = 0 then (if 0 < a then inf else if a < 0 then ninf else nan)
    else val (a / b)
  | val _, inf => val 0
  | val _, ninf => val 0
  | inf, val b => if b < 0 then ninf else inf
  | ninf, val b => if b < 0 then inf else ninf
  | inf, inf => nan
  | inf, ninf => nan
  | ninf, inf => nan
  | ninf, ninf => nan

/-- Function `Math.ceil` on `JSNum` (identity on the specials). -/
def JSNum.ceil : JSNum → JSNum
  | val q => val (⌈q⌉ : ℤ)
  | inf => inf
  | ninf => ninf
  | nan => nan

/-- The strict `>` comparison on `JSNum` (`NaN` compares false). -/
def JSNum.gt : JSNum → JSNum → Bool
  | nan, _ => false
  | _, nan => false
  | val a, val b => decide (b < a)
  | inf, inf => false
  | inf, _ => true
  | ninf, _ => false
  | val _, inf => false
  | val _, ninf => true

/-- Structure `ItemROIAnalysis` from src/features/gameLogic/types.ts, with the `cost`
field added by the .js build. -/
structure ItemROIAnalysis where
  itemId : Nat
  itemName : String
  cost : Nat
  isOwned : Bool
  isAffordable : Bool
  expectedWinRateIncrease : JSNum
  paybackBattles : JSNum
  roiScore : JSNum
  recommendation : String
  deriving Repr, DecidableEq

/-- Function `BattleIntelligence.analyzeItemROI`.  The `throw` on an unknown item id
becomes `none`.  The catalog is a parameter (the source reads
`CONFIG.itemShop`, i.e. `itemShop`). -/
def analyzeItemROI (shop : List ItemData) (itemId : Nat)
    (stats : PlayerStats) (memory : GameMemory) : Option ItemROIAnalysis :=
  match shop[itemId]? with
  | none => none
  | some item =>
    let isOwned := memory.itemsPurchased.any (fun p => p.id == itemId)
    let isAffordable := decide (item.cost ≤ stats.gold)
    let currentPower : ℚ := stats.strength + stats.defense
    let newPower : ℚ := currentPower + item.strength + item.defense
    -- const powerIncrease = newPower / currentPower - 1  (NO zero guard)
    let powerIncrease := JSNum.sub (JSNum.div (.val newPower) (.val currentPower)) (.val 1)
    let expectedWinRateIncrease := JSNum.mul powerIncrease (.val (1 / 2))
    let avgGoldPerBattleIncrease := JSNum.mul expectedWinRateIncrease (.val 60)
    let paybackBattles :=
      if JSNum.gt avgGoldPerBattleIncrease (.val 0) then
        JSNum.ceil (JSNum.div (.val item.cost) avgGoldPerBattleIncrease)
      else .val 999
    let roiScore :=
      JSNum.mul (JSNum.div (.val ((item.strength : ℚ) + item.defense)) (.val item.cost)) (.val 100)
    some
      { itemId := item.id
        itemName := item.name
        cost := item.cost
        isOwned := isOwned
        isAffordable := isAffordable
        expectedWinRateIncrease := expectedWinRateIncrease
        paybackBattles := paybackBattles
        roiScore := roiScore
        recommendation :=
          if JSNum.gt roiScore (.val 1) then "High Value"
          else if JSNum.gt roiScore (.val (1 / 2)) then "Good Value"
          else "Low Value" }

/-! ## Action Executor (src/features/blockchain/BlockchainService.ts) -/

/-- Whether `needle` is a prefix of `hay` (character lists). -/
def hasPrefixChars : List Char → List Char → Bool
  | [], _ => true
  | _ :: _, [] => false
  | a :: as, b :: bs => a == b && hasPrefixChars as bs

/-- Evaluate `hay.includes(needle)` on character lists. -/
def charsContain (needle : List Char) : List Char → Bool
  | [] => needle.isEmpty
  | c :: rest => hasPrefixChars needle (c :: rest) || charsContain needle rest

/-- JavaScript `hay.includes(needle)`. -/
def jsIncludes (hay needle : String) : Bool :=
  charsContain needle.toList hay.toList

/-- JavaScript `s.toLowerCase()` (ASCII-faithful, which covers every
keyword compared against). -/
def jsToLower (s : String) : String :=
  String.mk (s.toList.map Char.toLower)

/-- The keyword list of `BlockchainService.isNonRetryableError`. -/
def nonRetryableKeywords : List String :=
  [ "insufficient funds",
    "nonce too low",
    "replacement fee too low",
    "already exists",
    "not enough gold" ]

/-- Function `BlockchainService.isNonRetryableError`. -/
def isNonRetryableError (errorMsg : String) : Bool :=
  let lowerError := jsToLower errorMsg
  nonRetryableKeywords.any (fun keyword => jsIncludes lowerError keyword)

/-- One attempt's worth of behaviour of the external ledger, as the retry
loop of `executeTransaction` observes it: the submission-and-confirmation
succeeds with a receipt, or some step of it throws with the given error
message (post the `error.reason || error.message` extraction). -/
inductive TxAttempt where
  | ok (gasUsed : Nat) : TxAttempt
  | err (msg : String) : TxAttempt
  deriving Repr, DecidableEq

/-- How one call of `BlockchainService.executeTransaction` in live mode
ends: a confirmed receipt, an immediate raise of the non-retryable wrapper
(`Non-retryable error for ...`), the final wrapper raised when the last
attempt fails (`... failed after all retries.`), or the `return null` after
a loop that never ran (only reachable with `maxRetries = 0`). -/
inductive TxOutcome where
  | receipt (gasUsed : Nat) : TxOutcome
  | nonRetryableRaise (msg : String) : TxOutcome
  | exhaustedRaise : TxOutcome
  | nullReturn : TxOutcome
  deriving Repr, DecidableEq

/-- The retry loop of `executeTransaction` in live mode, over attempt
numbers `attempt, attempt+1, …` while fuel remains; alongside the outcome it
collects the backoff delays slept between attempts (the source sleeps
`3000 * attempt`, i.e. `base * attempt`, only when the failure is retryable
and the attempt was not the last). -/
def executeTransactionGo (behavior : ℕ → TxAttempt) (maxRetries base : ℕ) :
    ℕ → ℕ → TxOutcome × List ℕ
  | _, 0 => (.nullReturn, [])
  | attempt, fuel + 1 =>
    match behavior attempt with
    | .ok g => (.receipt g, [])
    | .err m =>
      if isNonRetryableError m then (.nonRetryableRaise m, [])
      else if attempt = maxRetries then (.exhaustedRaise, [])
      else
        let rest := executeTransactionGo behavior maxRetries base (attempt + 1) fuel
        (rest.1, base * attempt :: rest.2)

/-- Function `BlockchainService.executeTransaction` in live mode, as a function of
the configured retry count, the backoff base, and the per-attempt behaviour
of the ledger; attempts are numbered from 1 as in the source. -/
def executeTransactionLive (maxRetries base : ℕ) (behavior : ℕ → TxAttempt) :
    TxOutcome × List ℕ :=
  executeTransactionGo behavior maxRetries base 1 maxRetries

/-! ## Concrete inputs used by witnesses and counterexamples -/

/-- The simulated training outcome of `MemoryManager.simulateOutcome`
(timestamp fixed at 0). -/
def trainOutcome : ActionOutcome :=
  { action := "train", success := true, goldChange := 15, expChange := 10, timestamp := 0 }

/-- The simulated winning-battle outcome of `MemoryManager.simulateOutcome`
(timestamp fixed at 0). -/
def winOutcome : ActionOutcome :=
  { action := "fightMonster", success := true, goldChange := 40, expChange := 25, timestamp := 0 }

/-- A player state whose power score `strength + defense` is zero. -/
def zeroPowerStats : PlayerStats :=
  { level := 1, experience := 0, gold := 100, strength := 0, defense := 0 }

/-! ## Theorems -/

/-- C8: for every stat and history input (all naturals, hence all
non-negative), the win probability predicted by
`BattleIntelligence.predictBattleOutcome` lies in the closed interval
[0.05, 0.95]. -/
theorem C8_winProbability_in_bounds (stats : PlayerStats) (memory : GameMemory) :
    5 / 100 ≤ (predictBattleOutcome stats memory).winProbability ∧
      (predictBattleOutcome stats memory).winProbability ≤ 95 / 100 :=
  ⟨le_max_left _ _, max_le (by norm_num) (min_le_left _ _)⟩

/-- C2 (code bug): `MemoryManager.updateMemory` is not pure.  The shallow
copy `{...currentMemory}` aliases the caller's `recentActions` array and the
subsequent `push` mutates it: evaluated at the zero-state memory and the
simulated training outcome, the caller-visible `recentActions` array after
the call holds the pushed outcome even though the input memory's list was
empty before the call. -/
theorem C2_updateMemory_mutates_input :
    initializeMemory.recentActions = [] ∧
      (updateMemoryJS initializeMemory trainOutcome).2 = [trainOutcome] := by
  constructor
  · rfl
  · rfl

/-- Dividing a positive finite value by (positive) zero yields `+∞`. -/
theorem JSNum.div_val_zero_pos (a : ℚ) (h : 0 < a) :
    JSNum.div (.val a) (.val 0) = .inf := by
  simp [JSNum.div, h]

/-- Subtracting a finite value from `+∞` yields `+∞`. -/
theorem JSNum.sub_inf_val (b : ℚ) : JSNum.sub .inf (.val b) = .inf := rfl

/-- Multiplying `+∞` by a positive finite value yields `+∞`. -/
theorem JSNum.mul_inf_val_pos (b : ℚ) (h : 0 < b) :
    JSNum.mul .inf (.val b) = .inf := by
  simp [JSNum.mul, h]

/-- The full ROI report produced at the zero-power stats for item 0. -/
def roiAtZeroPower : ItemROIAnalysis :=
  { itemId := 0, itemName := "Wooden Shield", cost := 50, isOwned := false,
    isAffordable := true, expectedWinRateIncrease := .inf,
    paybackBattles := .val 0, roiScore := .val 10,
    recommendation := "High Value" }

/-- Evaluation of `analyzeItemROI` at the zero-power stats and item 0. -/
theorem analyzeItemROI_zeroPower_eval :
    analyzeItemROI itemShop 0 zeroPowerStats initializeMemory = some roiAtZeroPower := by
  unfold analyzeItemROI
  norm_num [itemShop, zeroPowerStats, initializeMemory, roiAtZeroPower,
    JSNum.div, JSNum.sub, JSNum.mul, JSNum.gt, JSNum.ceil]

/-- C3 (counterexample): at a zero power score the analyzer's
`expectedWinRateIncrease` is the IEEE `+∞`, not `0` — the division by
`currentPower` is not guarded. -/
theorem C3_counterexample :
    (analyzeItemROI itemShop 0 zeroPowerStats initializeMemory).map
        (fun r => r.expectedWinRateIncrease) = some JSNum.inf ∧
      (analyzeItemROI itemShop 0 zeroPowerStats initializeMemory).map
          (fun r => r.expectedWinRateIncrease) ≠ some (JSNum.val 0) := by
  rw [analyzeItemROI_zeroPower_eval]
  constructor
  · rfl
  · simp [roiAtZeroPower]

/-- C3 (amended): `BattleIntelligence.analyzeItemROI` has no division-by-zero
guard.  Whenever the current power score `strength + defense` is zero and the
candidate item carries a positive stat bonus, the power-increase ratio is the
IEEE `+∞` and so is the report's `expectedWinRateIncrease` (in particular it
is not the zero increase the specification describes). -/
theorem C3_analyzer_no_zero_guard (shop : List ItemData) (itemId : Nat)
    (stats : PlayerStats) (memory : GameMemory) (item : ItemData) (r : ItemROIAnalysis)
    (hstr : stats.strength = 0) (hdef : stats.defense = 0)
    (hitem : shop[itemId]? = some item)
    (hbonus : 0 < item.strength + item.defense)
    (hr : analyzeItemROI shop itemId stats memory = some r) :
    r.expectedWinRateIncrease = JSNum.inf := by
  unfold analyzeItemROI at hr
  rw [hitem, hstr, hdef] at hr
  simp only [Nat.cast_zero, add_zero, zero_add] at hr
  rw [JSNum.div_val_zero_pos _ (by exact_mod_cast hbonus), JSNum.sub_inf_val,
    JSNum.mul_inf_val_pos _ (by norm_num)] at hr
  injection hr with h
  rw [← h]

/-- Witness for C3 (amended): at the zero-power stats and the Wooden Shield
the hypotheses hold and the analyzer's report carries the infinite
`expectedWinRateIncrease`. -/
theorem C3_analyzer_no_zero_guard_witness :
    analyzeItemROI itemShop 0 zeroPowerStats initializeMemory = some roiAtZeroPower ∧
      roiAtZeroPower.expectedWinRateIncrease = JSNum.inf :=
  ⟨analyzeItemROI_zeroPower_eval,
   C3_analyzer_no_zero_guard itemShop 0 zeroPowerStats initializeMemory
     { id := 0, name := "Wooden Shield", cost := 50, strength := 0, defense := 5 }
     roiAtZeroPower rfl rfl rfl (by decide) analyzeItemROI_zeroPower_eval⟩

/-- C4 (counterexample): `parseAndValidateResponse` accepts a reply whose
action is not one of the six valid kinds and which carries an `itemId`
although the action is not `buyItem` — the validation only checks that
`action` and `reasoning` are truthy strings and that `itemId`, when present,
is numeric. -/
theorem C4_counterexample :
    parseAndValidateResponse (some ⟨.str "dance", .str "ok", .num 2⟩) =
        some { action := "dance", reasoning := "ok", itemId := some 2 } ∧
      "dance" ∉ validActionKinds ∧ "dance" ≠ "buyItem" := by
  refine ⟨rfl, by decide, by decide⟩

/-- C4 (amended): every reply accepted by
`AIService.parseAndValidateResponse` yields a decision whose `action` and
`reasoning` are non-empty strings and whose `itemId`, when present, is
numeric (by construction of the `itemId` field); the action is however not
constrained to the six valid kinds, and an `itemId` may accompany any
action. -/
theorem C4_accepted_reply_shape (raw : Option ParsedReply) (d : AIDecision)
    (h : parseAndValidateResponse raw = some d) :
    d.action ≠ "" ∧ d.reasoning ≠ "" := by
  cases raw with
  | none => exact absurd h (by simp [parseAndValidateResponse])
  | some p =>
    simp only [parseAndValidateResponse] at h
    split_ifs at h with h1 h2 h3
    cases h
    constructor
    · cases ha : p.action <;>
        simp_all [JSVal.truthy, JSVal.isString, JSVal.asString]
    · cases hb : p.reasoning <;>
        simp_all [JSVal.truthy, JSVal.isString, JSVal.asString]

/-- Witness for C4 (amended): a concrete accepted reply has non-empty
`action` and `reasoning`. -/
theorem C4_accepted_reply_shape_witness :
    parseAndValidateResponse (some ⟨.str "train", .str "ok", .undef⟩) =
        some { action := "train", reasoning := "ok", itemId := none } ∧
      ({ action := "train", reasoning := "ok", itemId := none } : AIDecision).action ≠ "" ∧
      ({ action := "train", reasoning := "ok", itemId := none } : AIDecision).reasoning ≠ "" :=
  ⟨rfl, C4_accepted_reply_shape (some ⟨.str "train", .str "ok", .undef⟩) _ rfl⟩

/-- C5: `BotEngine.validateAIDecision` is total (a plain function) and
agrees everywhere with the first-matching-rule cascade the specification
describes: loss-streak override, then insufficient-gold override, then
unaffordable-referenced-item override, and otherwise the decision is
returned unchanged. -/
theorem C5_guardrails_first_match (g : Guardrails) (shop : List ItemData)
    (d : AIDecision) (stats : PlayerStats) (memory : GameMemory) :
    validateAIDecision g shop d stats memory =
      firstMatching (guardrailRules g shop) d stats memory := by
  by_cases hf : d.action = "fightMonster"
  case pos =>
    by_cases hl : g.maxConsecutiveLosses ≤ memory.consecutiveLosses
    · simp [validateAIDecision, firstMatching, guardrailRules, hf, hl]
    · by_cases hg : stats.gold < g.minGoldForFight <;>
        simp [validateAIDecision, firstMatching, guardrailRules, hf, hl, hg]
  case neg =>
    by_cases hb : d.action = "buyItem"
    · cases hi : d.itemId with
      | none => simp [validateAIDecision, firstMatching, guardrailRules, hf, hb, hi]
      | some q =>
        cases hs : shopGet shop q with
        | none =>
          simp [validateAIDecision, firstMatching, guardrailRules, hf, hb, hi, hs]
        | some item =>
          by_cases hc : stats.gold < item.cost <;>
            simp [validateAIDecision, firstMatching, guardrailRules, hf, hb, hi, hs, hc]
    · simp [validateAIDecision, firstMatching, guardrailRules, hf, hb]

/-- C10: a `buyItem` decision whose `itemId` is absent, or whose `itemId`
does not index an item of the catalog, passes through
`BotEngine.validateAIDecision` unchanged, whatever the current gold. -/
theorem C10_unmatched_buyItem_passthrough (g : Guardrails) (shop : List ItemData)
    (d : AIDecision) (stats : PlayerStats) (memory : GameMemory)
    (hact : d.action = "buyItem")
    (hid : ∀ q, d.itemId = some q → shopGet shop q = none) :
    validateAIDecision g shop d stats memory = d := by
  cases hi : d.itemId with
  | none => simp [validateAIDecision, hact, hi]
  | some q => simp [validateAIDecision, hact, hi, hid q hi]

/-- Witness for C10: a concrete `buyItem` decision with no `itemId` passes
through unchanged. -/
theorem C10_unmatched_buyItem_passthrough_witness :
    validateAIDecision configGuardrails itemShop
        { action := "buyItem", reasoning := "buy", itemId := none }
        zeroPowerStats initializeMemory =
      { action := "buyItem", reasoning := "buy", itemId := none } :=
  C10_unmatched_buyItem_passthrough configGuardrails itemShop
    { action := "buyItem", reasoning := "buy", itemId := none }
    zeroPowerStats initializeMemory rfl (fun _ hq => nomatch hq)

/-- C6: one step of `MemoryManager.updateMemory` preserves the streak
invariants: at most one of `consecutiveWins`/`consecutiveLosses` is
non-zero (each is reset when the other increments), `bestWinStreak` never
decreases, and it remains the running maximum of the `consecutiveWins`
values reached so far (`bestWinStreak = max` of its old value and the new
`consecutiveWins`). -/
theorem C6_streak_invariants (m : GameMemory) (o : ActionOutcome)
    (hex : m.consecutiveWins = 0 ∨ m.consecutiveLosses = 0)
    (hbest : m.consecutiveWins ≤ m.bestWinStreak) :
    ((updateMemory m o).consecutiveWins = 0 ∨ (updateMemory m o).consecutiveLosses = 0) ∧
      (updateMemory m o).consecutiveWins ≤ (updateMemory m o).bestWinStreak ∧
      m.bestWinStreak ≤ (updateMemory m o).bestWinStreak ∧
      (updateMemory m o).bestWinStreak =
        max m.bestWinStreak (updateMemory m o).consecutiveWins := by
  unfold updateMemory updateMemoryJS
  split_ifs <;> simp_all

/-- Witness for C6: the first winning battle applied to the zero-state
yields streak fields satisfying all the preserved invariants. -/
theorem C6_streak_invariants_witness :
    ((updateMemory initializeMemory winOutcome).consecutiveWins = 0 ∨
        (updateMemory initializeMemory winOutcome).consecutiveLosses = 0) ∧
      (updateMemory initializeMemory winOutcome).consecutiveWins ≤
        (updateMemory initializeMemory winOutcome).bestWinStreak ∧
      initializeMemory.bestWinStreak ≤
        (updateMemory initializeMemory winOutcome).bestWinStreak ∧
      (updateMemory initializeMemory winOutcome).bestWinStreak =
        max initializeMemory.bestWinStreak
          (updateMemory initializeMemory winOutcome).consecutiveWins :=
  C6_streak_invariants initializeMemory winOutcome (Or.inl rfl) (Nat.le_refl 0)

/-- The last `n` elements of a list, in order (JavaScript `slice(-n)` for a
list of length ≥ n, the whole list otherwise). -/
def lastN {α : Type _} (n : ℕ) (l : List α) : List α :=
  l.drop (l.length - n)

/-- The length of `lastN n l` is at most `n`. -/
theorem lastN_length_le {α : Type _} (n : ℕ) (l : List α) : (lastN n l).length ≤ n := by
  simp only [lastN, List.length_drop]
  omega

/-- In every branch of `updateMemory`, the returned `recentActions` is the
pushed list trimmed to its last 30 entries when it exceeds 30. -/
theorem updateMemory_recentActions (m : GameMemory) (o : ActionOutcome) :
    (updateMemory m o).recentActions =
      if (m.recentActions ++ [o]).length > 30 then
        (m.recentActions ++ [o]).drop ((m.recentActions ++ [o]).length - 30)
      else m.recentActions ++ [o] := by
  unfold updateMemory updateMemoryJS
  split_ifs <;> simp_all

/-- Appending one element to the last `n` of a list and re-trimming gives
the last `n` of the extended list. -/
theorem lastN_concat {α : Type _} (n : ℕ) (hn : 1 ≤ n) (l : List α) (o : α) :
    (if (lastN n l ++ [o]).length > n then
        (lastN n l ++ [o]).drop ((lastN n l ++ [o]).length - n)
      else lastN n l ++ [o]) = lastN n (l ++ [o]) := by
  have hlen : (lastN n l).length = l.length - (l.length - n) := by
    simp [lastN]
  rcases le_or_lt l.length n with h | h
  · have hl : lastN n l = l := by
      simp [lastN, Nat.sub_eq_zero_of_le h]
    rw [hl]
    rcases eq_or_lt_of_le h with rfl | hlt
    · rw [if_pos (by simp)]
      simp [lastN]
    · rw [if_neg (by simp; omega)]
      have hz : l.length + 1 - n = 0 := by omega
      simp [lastN, hz]
  · have hr : (lastN n l).length = n := by omega
    rw [if_pos (by simp [hr])]
    have h1 : (lastN n l ++ [o]).length - n = 1 := by simp [hr]
    rw [h1]
    rw [List.drop_append_eq_append_drop]
    rw [hr]
    have h2 : 1 - n = 0 := by omega
    rw [h2]
    simp only [lastN, List.drop_drop, List.length_append, List.length_singleton,
      List.drop_append_eq_append_drop, List.length_drop]
    have h3 : l.length - n + 1 = l.length + 1 - n := by omega
    have h4 : l.length + 1 - n - l.length = 0 := by omega
    rw [h3, h4]

/-- C7: `recentActions` stays within 30 entries across one update whenever
it was within 30 before, and, starting from the zero-state, any sequence of
updates leaves exactly the most recent (at most 30) outcomes, in order of
application, with the oldest evicted first. -/
theorem C7_recentActions_bounded_fifo :
    (∀ (m : GameMemory) (o : ActionOutcome),
        m.recentActions.length ≤ 30 → (updateMemory m o).recentActions.length ≤ 30) ∧
      ∀ outcomes : List ActionOutcome,
        (outcomes.foldl updateMemory initializeMemory).recentActions = lastN 30 outcomes ∧
          (outcomes.foldl updateMemory initializeMemory).recentActions.length ≤ 30 := by
  constructor
  · intro m o _
    rw [updateMemory_recentActions]
    split_ifs with h
    · simp only [List.length_drop]
      omega
    · simp only [List.length_append, List.length_singleton] at h ⊢
      omega
  · intro outcomes
    induction outcomes using List.reverseRecOn with
    | nil =>
      constructor
      · simp [initializeMemory, lastN]
      · simp [initializeMemory]
    | append_singleton os o ih =>
      have hstep :
          ((os ++ [o]).foldl updateMemory initializeMemory).recentActions =
            lastN 30 (os ++ [o]) := by
        rw [List.foldl_append, List.foldl_cons, List.foldl_nil,
          updateMemory_recentActions, ih.1]
        exact lastN_concat 30 (by norm_num) os o
      refine ⟨hstep, ?_⟩
      rw [hstep]
      exact lastN_length_le 30 (os ++ [o])

/-- Witness for C7: the first conjunct applied at the zero-state memory, and
the trace conjunct applied to a 35-outcome run (the retained history is the
last 30 outcomes). -/
theorem C7_recentActions_bounded_fifo_witness :
    (updateMemory initializeMemory trainOutcome).recentActions.length ≤ 30 ∧
      ((List.replicate 35 trainOutcome).foldl updateMemory initializeMemory).recentActions =
        lastN 30 (List.replicate 35 trainOutcome) :=
  ⟨C7_recentActions_bounded_fifo.1 initializeMemory trainOutcome (by decide),
   (C7_recentActions_bounded_fifo.2 (List.replicate 35 trainOutcome)).1⟩

/-- For every per-attempt behaviour of the oracle, the retry loop of
`getDecision` either returns the fallback or returns a decision validated
from one of the attempts it was allowed, and it returns the fallback
whenever every allowed attempt fails to produce a validated decision. -/
theorem getDecisionAux_spec (b : ℕ → OracleAttempt) :
    ∀ (fuel start : ℕ),
      ((∀ j, j < fuel → attemptDecision (b (start + j)) = none) →
          getDecisionAux b start fuel = fallbackDecision) ∧
        (getDecisionAux b start fuel = fallbackDecision ∨
          ∃ j, j < fuel ∧
            attemptDecision (b (start + j)) = some (getDecisionAux b start fuel)) := by
  intro fuel
  induction fuel with
  | zero => exact fun start => ⟨fun _ => rfl, Or.inl rfl⟩
  | succ f ih =>
    intro start
    cases hd : attemptDecision (b start) with
    | some d =>
      constructor
      · intro hall
        have h0 := hall 0 (Nat.succ_pos f)
        rw [Nat.add_zero, hd] at h0
        cases h0
      · right
        refine ⟨0, Nat.succ_pos f, ?_⟩
        rw [Nat.add_zero, hd]
        simp [getDecisionAux, hd]
    | none =>
      have ihs := ih (start + 1)
      have hred : getDecisionAux b start (f + 1) = getDecisionAux b (start + 1) f := by
        simp [getDecisionAux, hd]
      constructor
      · intro hall
        rw [hred]
        refine ihs.1 (fun j hj => ?_)
        have hsh := hall (j + 1) (Nat.succ_lt_succ hj)
        rwa [show start + (j + 1) = start + 1 + j by omega] at hsh
      · rw [hred]
        rcases ihs.2 with h | ⟨j, hj, hjd⟩
        · exact Or.inl h
        · exact Or.inr ⟨j + 1, Nat.succ_lt_succ hj,
            by rwa [show start + (j + 1) = start + 1 + j by omega]⟩

/-- C1: `AIService.getDecision` always terminates with a value — for every
behaviour of the external service (transport errors, empty replies,
malformed or invalid replies, in any combination) it returns either a
decision validated from one of the attempts within the configured budget or
the deterministic fallback, and when every attempt within the budget fails
it returns the fallback, whose action is `train`. -/
theorem C1_getDecision_total_fallback (maxRetries : ℕ) (behavior : ℕ → OracleAttempt) :
    fallbackDecision.action = "train" ∧
      ((∀ i, i < maxRetries → attemptDecision (behavior i) = none) →
          getDecision maxRetries behavior = fallbackDecision) ∧
      (getDecision maxRetries behavior = fallbackDecision ∨
        ∃ i, i < maxRetries ∧
          attemptDecision (behavior i) = some (getDecision maxRetries behavior)) := by
  have h := getDecisionAux_spec behavior maxRetries 0
  refine ⟨rfl, ?_, ?_⟩
  · intro hall
    exact h.1 (fun j hj => by simpa using hall j hj)
  · rcases h.2 with h' | ⟨j, hj, hjd⟩
    · exact Or.inl h'
    · exact Or.inr ⟨j, hj, by simpa using hjd⟩

/-- Witness for C1: three transport errors in a row exhaust the configured
three attempts and the adapter returns the fallback decision, a value whose
action is `train`. -/
theorem C1_getDecision_total_fallback_witness :
    getDecision 3 (fun _ => OracleAttempt.transportError) = fallbackDecision ∧
      fallbackDecision.action = "train" :=
  ⟨(C1_getDecision_total_fallback 3 (fun _ => OracleAttempt.transportError)).2.1
      (fun _ _ => rfl),
   (C1_getDecision_total_fallback 3 (fun _ => OracleAttempt.transportError)).1⟩

/-- One-step unfolding of the executor's retry loop. -/
theorem executeTransactionGo_succ (behavior : ℕ → TxAttempt)
    (maxR base attempt fuel : ℕ) :
    executeTransactionGo behavior maxR base attempt (fuel + 1) =
      match behavior attempt with
      | .ok g => (.receipt g, [])
      | .err m =>
        if isNonRetryableError m then (.nonRetryableRaise m, [])
        else if attempt = maxR then (.exhaustedRaise, [])
        else ((executeTransactionGo behavior maxR base (attempt + 1) fuel).1,
          base * attempt :: (executeTransactionGo behavior maxR base (attempt + 1) fuel).2) :=
  rfl

/-- When every attempt from `attempt` through `maxR` fails with a retryable
error, the executor's loop raises the final wrapped error after sleeping the
linear backoff `base * a` for every attempt `a` except the last. -/
theorem execGo_exhaust (b : ℕ → TxAttempt) (maxR base : ℕ) :
    ∀ (fuel attempt : ℕ), 1 ≤ fuel → attempt + fuel = maxR + 1 →
      (∀ i, attempt ≤ i → i ≤ maxR → ∃ m, b i = .err m ∧ isNonRetryableError m = false) →
      executeTransactionGo b maxR base attempt fuel =
        (.exhaustedRaise, (List.range' attempt (fuel - 1)).map (fun a => base * a)) := by
  intro fuel
  induction fuel with
  | zero => exact fun attempt h => absurd h (by omega)
  | succ f ih =>
    intro attempt _ hsum hfail
    obtain ⟨m, hb, hnr⟩ := hfail attempt (Nat.le_refl _) (by omega)
    rw [executeTransactionGo_succ, hb]
    cases f with
    | zero =>
      have hat : attempt = maxR := by omega
      subst hat
      simp [hnr]
    | succ f' =>
      have hne : attempt ≠ maxR := by omega
      have ihh := ih (attempt + 1) (by omega) (by omega)
        (fun i h1 h2 => hfail i (by omega) h2)
      rw [ihh]
      simp only [hnr, Bool.false_eq_true, if_false, if_neg hne]
      rw [show f' + 1 + 1 - 1 = f' + 1 by omega, show f' + 1 - 1 = f' by omega,
        List.range'_succ]
      simp

/-- C9: in live mode, a first-attempt failure whose message contains one of
the fixed non-retryable substrings is raised immediately with no backoff
sleeps; a behaviour failing every attempt with retryable errors exhausts the
configured maximum, sleeping the linear backoff `base * attemptNumber`
between consecutive attempts, and raises the final wrapped error; and each
of the five fixed substrings is classified non-retryable. -/
theorem C9_executor_error_classification (maxR base : ℕ) (b : ℕ → TxAttempt)
    (hmax : 1 ≤ maxR) :
    (∀ m, b 1 = .err m → isNonRetryableError m = true →
        executeTransactionLive maxR base b = (.nonRetryableRaise m, [])) ∧
      ((∀ i, 1 ≤ i → i ≤ maxR → ∃ m, b i = .err m ∧ isNonRetryableError m = false) →
        executeTransactionLive maxR base b =
          (.exhaustedRaise, (List.range' 1 (maxR - 1)).map (fun a => base * a))) ∧
      nonRetryableKeywords.all (fun k => isNonRetryableError k) = true := by
  refine ⟨?_, ?_, by decide⟩
  · intro m hb hnr
    obtain ⟨n, rfl⟩ : ∃ n, maxR = n + 1 := ⟨maxR - 1, by omega⟩
    simp [executeTransactionLive, executeTransactionGo, hb, hnr]
  · intro hfail
    simpa only [executeTransactionLive] using
      execGo_exhaust b maxR base maxR 1 hmax (by omega) hfail

/-- Witness for C9: with three configured attempts and base 3000, an
`"nonce too low"` failure raises immediately with no sleeps, while a
behaviour failing every attempt with an opaque `"timeout"` exhausts all
three attempts after sleeping 3000 and 6000 milliseconds. -/
theorem C9_executor_error_classification_witness :
    executeTransactionLive 3 3000 (fun _ => TxAttempt.err "nonce too low") =
        (.nonRetryableRaise "nonce too low", []) ∧
      executeTransactionLive 3 3000 (fun _ => TxAttempt.err "timeout") =
        (.exhaustedRaise, (List.range' 1 2).map (fun a => 3000 * a)) ∧
      (List.range' 1 2).map (fun a => 3000 * a) = [3000, 6000] :=
  ⟨(C9_executor_error_classification 3 3000 (fun _ => TxAttempt.err "nonce too low")
      (by omega)).1 "nonce too low" rfl (by decide),
   (C9_executor_error_classification 3 3000 (fun _ => TxAttempt.err "timeout")
      (by omega)).2.1 (fun i _ _ => ⟨"timeout", rfl, by decide⟩),
   by decide⟩

end CeloRpg
